import Mathlib

/-
  Verification of the MPR121 capacitive-touch driver (src/src/MPR121.cpp)
  against its natural-language specification.

  The embedding models the device handle (`St`), the two-wire bus
  (`Bus`: a device register file plus transaction-success oracles), and
  every operation as a pure function returning its result, the updated
  handle, the updated bus, and the list of bus transactions (`Ev`) it
  issued.  Machine bytes are `Nat` with explicit `% 256` where the C++
  performs `uint8_t` truncation.
-/

namespace MPR121

/-- Modelled from the spec: register addresses of the MPR121 chip.  The
header that defines these constants is not under src/; the values are the
vendor-datasheet register map the spec refers to ("single-byte register
addressing already owned by the vendor's datasheet").  The claims depend
only on the constants being the distinct addresses used in MPR121.cpp. -/
def TS1 : Nat := 0x00

/-- Touch status register 2; bit 7 is the overcurrent flag. -/
def TS2 : Nat := 0x01

/-- Out-of-range status register 1. -/
def OORS1 : Nat := 0x02

/-- Out-of-range status register 2. -/
def OORS2 : Nat := 0x03

/-- Start of the filtered-data register block. -/
def E0FDL : Nat := 0x04

/-- Start of the baseline-value register block. -/
def E0BV : Nat := 0x1E

/-- Electrode 0 touch threshold register. -/
def E0TTH : Nat := 0x41

/-- Electrode 0 release threshold register. -/
def E0RTH : Nat := 0x42

/-- Analog front-end configuration register 2 (defaults to 0x24). -/
def AFE2 : Nat := 0x5D

/-- Electrode configuration (enable/run) register. -/
def ECR : Nat := 0x5E

/-- GPIO control register 0 - the threshold address for stop/run bracketing. -/
def CTL0 : Nat := 0x73

/-- GPIO control register 1. -/
def CTL1 : Nat := 0x74

/-- GPIO data register. -/
def DAT : Nat := 0x75

/-- GPIO direction register. -/
def DIR : Nat := 0x76

/-- GPIO enable register. -/
def EN : Nat := 0x77

/-- GPIO data set register. -/
def SET : Nat := 0x78

/-- GPIO data clear register. -/
def CLR : Nat := 0x79

/-- GPIO data toggle register. -/
def TOG : Nat := 0x7A

/-- Soft-reset register. -/
def SRST : Nat := 0x80

/-- PWM duty register 0. -/
def PWM0 : Nat := 0x81

/-- PWM duty register 1. -/
def PWM1 : Nat := 0x82

/-- PWM duty register 2. -/
def PWM2 : Nat := 0x83

/-- PWM duty register 3. -/
def PWM3 : Nat := 0x84

/-- Modelled from the spec: number of electrodes ("electrode count fixed,
e.g. 13"); matches the burst sizes 13 and 26 used in MPR121.cpp. -/
def ELECTRODE_COUNT : Nat := 13

/-- Modelled from the spec: maximum digital pin count (pins ELE4..ELE11). -/
def DIGITAL_PIN_COUNT_MAX : Nat := 8

/-- Modelled from the spec: bit positions of the error flags inside the
handle's error byte.  The header defining them is not under src/; the
claims depend only on the five bits being distinct and below 8. -/
def NOT_INITIALIZED_BIT : Nat := 0

/-- Bit position of the address-unknown (bus failure) flag. -/
def ADDRESS_UNKNOWN_BIT : Nat := 1

/-- Bit position of the readback-failure flag. -/
def READBACK_FAIL_BIT : Nat := 2

/-- Bit position of the overcurrent flag. -/
def OVERCURRENT_FLAG_BIT : Nat := 3

/-- Bit position of the out-of-range flag. -/
def OUT_OF_RANGE_BIT : Nat := 4

/-- The single-error report type returned by getError (MPR121_error_t). -/
inductive Error where
  | NO_ERROR
  | ADDRESS_UNKNOWN
  | READBACK_FAIL
  | OVERCURRENT_FLAG
  | OUT_OF_RANGE
  | NOT_INITIALIZED
deriving DecidableEq, Repr

/-- `error_byte_ |= 1<<bit`. -/
def bset (e bit : Nat) : Nat := e ||| (1 <<< bit)

/-- `error_byte_ &= ~(1<<bit)` on a `uint8_t`: the complement of the bit
inside one byte is `255 ^^^ (1 <<< bit)` for bit < 8. -/
def bclr (e bit : Nat) : Nat := e &&& (255 ^^^ (1 <<< bit))

/-- `(error_byte_ & (1<<bit)) != 0`. -/
def btest (e bit : Nat) : Bool := e &&& (1 <<< bit) != 0

/-- One bus transaction, with its observable parameters and outcome:
a single-register write, a single-register read, or a burst read
(address-pointer write followed by requestFrom). -/
inductive Ev where
  | wr (reg value : Nat) (ok : Bool)
  | rd (reg : Nat) (ok : Bool)
  | burst (start requested got : Nat)
deriving DecidableEq, Repr

/-- The device handle: the member variables of the MPR121 class.  The
per-electrode arrays are total functions; only indices below
ELECTRODE_COUNT are meaningful. -/
structure St where
  address : Nat
  ecr_backup : Nat
  error_byte : Nat
  running : Bool
  touch_data : Nat
  touch_data_previous : Nat
  auto_touch_status_flag : Bool
  interrupt_pin : Nat
  baseline_data : Nat → Nat
  filtered_data : Nat → Nat

/-- The two-wire bus environment: the device register file (bytes,
updated by successful writes and read back by reads and bursts with
address auto-increment), transaction-success oracles, the number of
bytes a burst read actually returns, and the level of the interrupt
line (`intLow` = the pin reads LOW, i.e. asserted). -/
structure Bus where
  regs : Nat → Nat
  writeOk : Nat → Nat → Bool
  readOk : Nat → Bool
  avail : Nat → Nat → Nat
  intLow : Bool

/-- The constructor MPR121::MPR121 (lines 12-22): address 0x5A, ECR backup
zero, the not-initialized flag set, not running, zero touch data, auto
flag clear.  The C++ leaves the data arrays and interrupt pin
uninitialized; the model zeroes them. -/
def initState : St :=
  { address := 0x5A
    ecr_backup := 0
    error_byte := 1 <<< NOT_INITIALIZED_BIT
    running := false
    touch_data := 0
    touch_data_previous := 0
    auto_touch_status_flag := false
    interrupt_pin := 0
    baseline_data := fun _ => 0
    filtered_data := fun _ => 0 }

/-- MPR121::isInitialized (lines 511-514). -/
def isInitialized (s : St) : Bool := !(btest s.error_byte NOT_INITIALIZED_BIT)

/-- MPR121::clearError (lines 85-88): zeroes the whole error byte. -/
def clearError (s : St) : St := { s with error_byte := 0 }

/-- MPR121::isRunning (lines 506-509). -/
def isRunning (s : St) : Bool := s.running

/-- MPR121::touchStatusChanged (lines 90-94): the sticky software flag or
the (active-low) interrupt pin being asserted.  Reads a host pin, not the
bus, so no bus event. -/
def touchStatusChanged (s : St) (b : Bus) : Bool :=
  s.auto_touch_status_flag || b.intLow

/-- The write transaction inside MPR121::setRegister (lines 392-402):
write the value byte to the device register (taking effect only when the
transaction succeeds) and set or clear the address-unknown flag from the
endTransmission result. -/
def busWrite (s : St) (b : Bus) (reg value : Nat) : St × Bus × List Ev :=
  let v := value % 256
  let ok := b.writeOk reg v
  let b' := if ok then { b with regs := fun r => if r = reg then v else b.regs r } else b
  let s' :=
    if ok then { s with error_byte := bclr s.error_byte ADDRESS_UNKNOWN_BIT }
    else { s with error_byte := bset s.error_byte ADDRESS_UNKNOWN_BIT }
  (s', b', [Ev.wr reg v ok])

/-- MPR121::getRegister (lines 410-445): one-byte read of `reg`; updates
the address-unknown flag from the transaction outcome, then rewrites the
overcurrent flag (set iff reg is TS2 with bit 7 of the value set, cleared
otherwise) and the out-of-range flag (set iff reg is OORS1 or OORS2 with
a nonzero value, cleared otherwise) - faithfully including the else
branches that clear those flags on every other read. -/
def getRegister (s : St) (b : Bus) (reg : Nat) : Nat × St × Bus × List Ev :=
  let ok := b.readOk reg
  let value := b.regs reg % 256
  let e1 :=
    if ok then bclr s.error_byte ADDRESS_UNKNOWN_BIT
    else bset s.error_byte ADDRESS_UNKNOWN_BIT
  let e2 :=
    if reg = TS2 ∧ value &&& 0x80 ≠ 0 then bset e1 OVERCURRENT_FLAG_BIT
    else bclr e1 OVERCURRENT_FLAG_BIT
  let e3 :=
    if (reg = OORS1 ∨ reg = OORS2) ∧ value ≠ 0 then bset e2 OUT_OF_RANGE_BIT
    else bclr e2 OUT_OF_RANGE_BIT
  (value, { s with error_byte := e3 }, b, [Ev.rd reg ok])

/-- The `reg == ECR` branch of MPR121::setRegister (lines 371-381 plus the
write): update the running flag from the electrode-enable bits of the
value, then perform the write.  Split out because stop() and run() reach
setRegister only through this branch. -/
def setRegisterECR (s : St) (b : Bus) (value : Nat) : St × Bus × List Ev :=
  let s' := { s with running := value &&& 0x3F != 0 }
  busWrite s' b ECR value

/-- MPR121::run (lines 447-454): no-op when not initialized, otherwise
write the backed-up ECR value (through setRegister's ECR branch). -/
def run (s : St) (b : Bus) : St × Bus × List Ev :=
  if isInitialized s then setRegisterECR s b s.ecr_backup
  else (s, b, [])

/-- MPR121::stop (lines 456-464): no-op when not initialized, otherwise
read ECR into the backup and write back only its top two bits. -/
def stop (s : St) (b : Bus) : St × Bus × List Ev :=
  if isInitialized s then
    let r := getRegister s b ECR
    let s1 := { r.2.1 with ecr_backup := r.1 }
    let w := setRegisterECR s1 r.2.2.1 (r.1 &&& 0xC0)
    (w.1, w.2.1, r.2.2.2 ++ w.2.2)
  else (s, b, [])

/-- MPR121::setRegister (lines 366-408): ECR writes update the running
flag; writes to other registers below CTL0 are bracketed by stop()/run()
when currently running; writes at or above CTL0 go straight through. -/
def setRegister (s : St) (b : Bus) (reg value : Nat) : St × Bus × List Ev :=
  if reg = ECR then setRegisterECR s b value
  else if reg < CTL0 then
    let was := s.running
    let p1 := if was then stop s b else (s, b, [])
    let p2 := busWrite p1.1 p1.2.1 reg value
    let p3 := if was then run p2.1 p2.2.1 else (p2.1, p2.2.1, [])
    (p3.1, p3.2.1, p1.2.2 ++ p2.2.2 ++ p3.2.2)
  else busWrite s b reg value

/-- MPR121::getError (lines 49-83): first reads OORS1 and OORS2 (each a
full getRegister with its flag side effects), then reports a single error
by the fixed precedence chain over the flags as they stand after those
reads. -/
def getError (s : St) (b : Bus) : Error × St × Bus × List Ev :=
  let r1 := getRegister s b OORS1
  let r2 := getRegister r1.2.1 r1.2.2.1 OORS2
  let s2 := r2.2.1
  let e :=
    if !(isInitialized s2) then Error.NOT_INITIALIZED
    else if btest s2.error_byte ADDRESS_UNKNOWN_BIT then Error.ADDRESS_UNKNOWN
    else if btest s2.error_byte READBACK_FAIL_BIT then Error.READBACK_FAIL
    else if btest s2.error_byte OVERCURRENT_FLAG_BIT then Error.OVERCURRENT_FLAG
    else if btest s2.error_byte OUT_OF_RANGE_BIT then Error.OUT_OF_RANGE
    else Error.NO_ERROR
  (e, s2, r2.2.2.1, r1.2.2.2 ++ r2.2.2.2)

/-- The checking part of MPR121::reset (lines 476-494): soft-reset write,
AFE2 readback check setting/clearing the readback-failure flag, TS2 read
setting/clearing the overcurrent flag. -/
def resetChecks (s : St) (b : Bus) : St × Bus × List Ev :=
  let w := setRegister s b SRST 0x63
  let r1 := getRegister w.1 w.2.1 AFE2
  let s2 :=
    if r1.1 ≠ 0x24 then { r1.2.1 with error_byte := bset r1.2.1.error_byte READBACK_FAIL_BIT }
    else { r1.2.1 with error_byte := bclr r1.2.1.error_byte READBACK_FAIL_BIT }
  let r2 := getRegister s2 r1.2.2.1 TS2
  let s3 :=
    if r2.1 &&& 0x80 ≠ 0 then { r2.2.1 with error_byte := bset r2.2.1.error_byte OVERCURRENT_FLAG_BIT }
    else { r2.2.1 with error_byte := bclr r2.2.1.error_byte OVERCURRENT_FLAG_BIT }
  (s3, r2.2.2.1, w.2.2 ++ r1.2.2.2 ++ r2.2.2.2)

/-- MPR121::reset (lines 466-504): the checks, then
`getError()==NOT_INITIALIZED || getError()==NO_ERROR` with C++
short-circuit evaluation (getError is called a second time only when the
first call did not return NOT_INITIALIZED). -/
def reset (s : St) (b : Bus) : Bool × St × Bus × List Ev :=
  let c := resetChecks s b
  let g1 := getError c.1 c.2.1
  if g1.1 = Error.NOT_INITIALIZED then (true, g1.2.1, g1.2.2.1, c.2.2 ++ g1.2.2.2)
  else
    let g2 := getError g1.2.1 g1.2.2.1
    (g2.1 = Error.NO_ERROR, g2.2.1, g2.2.2.1, c.2.2 ++ g1.2.2.2 ++ g2.2.2.2)

/-- MPR121::updateTouchData (lines 96-107): no-op when not initialized;
otherwise clear the auto flag, shift current touch data to previous, and
read TS1 and TS2 into the touch bitmap (TS1 then TS2; the C++ leaves the
evaluation order of the two operands unspecified). -/
def updateTouchData (s : St) (b : Bus) : St × Bus × List Ev :=
  if isInitialized s then
    let s0 := { s with auto_touch_status_flag := false
                       touch_data_previous := s.touch_data }
    let r1 := getRegister s0 b TS1
    let r2 := getRegister r1.2.1 r1.2.2.1 TS2
    ({ r2.2.1 with touch_data := r1.1 + (r2.1 <<< 8) }, r2.2.2.1, r1.2.2.2 ++ r2.2.2.2)
  else (s, b, [])

/-- The per-iteration flag check inside the burst-read loops (e.g. lines
130-133): if touchStatusChanged, latch the auto flag. -/
def latchTouchFlag (s : St) (b : Bus) : St :=
  if touchStatusChanged s b then { s with auto_touch_status_flag := true } else s

/-- The read loop of MPR121::updateBaselineData (lines 128-135): for each
electrode below `n`, latch the touch flag and store the burst byte shifted
left by 2. -/
def baselineLoop (b : Bus) : St → Nat → St
  | s, 0 => s
  | s, n + 1 =>
    let s1 := baselineLoop b s n
    let s2 := latchTouchFlag s1 b
    { s2 with baseline_data :=
        fun e => if e = n then (b.regs (E0BV + n) % 256) <<< 2 else s2.baseline_data e }

/-- MPR121::updateBaselineData (lines 109-144): failure when not
initialized; otherwise set the address pointer to E0BV, latch the touch
flag, burst-read ELECTRODE_COUNT bytes; if fewer arrive the array is left
alone and the call fails, otherwise the loop rewrites it. -/
def updateBaselineData (s : St) (b : Bus) : Bool × St × Bus × List Ev :=
  if isInitialized s then
    let got := b.avail E0BV ELECTRODE_COUNT
    let tr := [Ev.burst E0BV ELECTRODE_COUNT got]
    let s1 := latchTouchFlag s b
    if got = ELECTRODE_COUNT then (true, baselineLoop b s1 ELECTRODE_COUNT, b, tr)
    else (false, s1, b, tr)
  else (false, s, b, [])

/-- The read loop of MPR121::updateFilteredData (lines 167-180): for each
electrode below `n`, latch the touch flag around the LSB and MSB byte
reads and store `(MSB << 8) | LSB`. -/
def filteredLoop (b : Bus) : St → Nat → St
  | s, 0 => s
  | s, n + 1 =>
    let s1 := filteredLoop b s n
    let s2 := latchTouchFlag (latchTouchFlag s1 b) b
    let lsb := b.regs (E0FDL + 2 * n) % 256
    let msb := b.regs (E0FDL + 2 * n + 1) % 256
    { s2 with filtered_data :=
        fun e => if e = n then (msb <<< 8) ||| lsb else s2.filtered_data e }

/-- MPR121::updateFilteredData (lines 146-189): failure when not
initialized; otherwise set the address pointer to E0FDL, latch the touch
flag, burst-read 26 bytes; if fewer arrive the array is left alone and
the call fails, otherwise the loop rewrites it. -/
def updateFilteredData (s : St) (b : Bus) : Bool × St × Bus × List Ev :=
  if isInitialized s then
    let got := b.avail E0FDL 26
    let tr := [Ev.burst E0FDL 26 got]
    let s1 := latchTouchFlag s b
    if got = 26 then (true, filteredLoop b s1 ELECTRODE_COUNT, b, tr)
    else (false, s1, b, tr)
  else (false, s, b, [])

/-- MPR121::touched (lines 198-206): false for out-of-range electrode or
uninitialized handle, else bit `electrode` of the touch bitmap. -/
def touched (s : St) (electrode : Nat) : Bool :=
  if ELECTRODE_COUNT ≤ electrode ∨ isInitialized s = false then false
  else (s.touch_data >>> electrode) &&& 1 != 0

/-- MPR121::getTouchCount (lines 208-224). -/
def getTouchCount (s : St) : Nat :=
  if isInitialized s then
    (List.range ELECTRODE_COUNT).foldl (fun c e => if touched s e then c + 1 else c) 0
  else 0

/-- MPR121::getBaselineData (lines 226-234): 0xFFFF sentinel for
out-of-range electrode or uninitialized handle. -/
def getBaselineData (s : St) (electrode : Nat) : Nat :=
  if ELECTRODE_COUNT ≤ electrode ∨ isInitialized s = false then 0xFFFF
  else s.baseline_data electrode

/-- MPR121::getFilteredData (lines 236-244): 0xFFFF sentinel for
out-of-range electrode or uninitialized handle. -/
def getFilteredData (s : St) (electrode : Nat) : Nat :=
  if ELECTRODE_COUNT ≤ electrode ∨ isInitialized s = false then 0xFFFF
  else s.filtered_data electrode

/-- MPR121::getPreviousTouchData (lines 834-842). -/
def getPreviousTouchData (s : St) (electrode : Nat) : Bool :=
  if ELECTRODE_COUNT ≤ electrode ∨ isInitialized s = false then false
  else (s.touch_data_previous >>> electrode) &&& 1 != 0

/-- MPR121::isNewTouch (lines 246-253). -/
def isNewTouch (s : St) (electrode : Nat) : Bool :=
  if ELECTRODE_COUNT ≤ electrode ∨ isInitialized s = false then false
  else (getPreviousTouchData s electrode = false) ∧ (touched s electrode = true)

/-- MPR121::isNewRelease (lines 255-262). -/
def isNewRelease (s : St) (electrode : Nat) : Bool :=
  if ELECTRODE_COUNT ≤ electrode ∨ isInitialized s = false then false
  else (getPreviousTouchData s electrode = true) ∧ (touched s electrode = false)

/-- The per-electrode MPR121::setTouchThreshold (lines 291-300): no-op for
out-of-range electrode or uninitialized handle, else write the threshold
register for that electrode. -/
def setTouchThreshold (s : St) (b : Bus) (electrode threshold : Nat) : St × Bus × List Ev :=
  if ELECTRODE_COUNT ≤ electrode ∨ isInitialized s = false then (s, b, [])
  else setRegister s b (E0TTH + (electrode <<< 1)) threshold

/-- The loop of the all-electrodes threshold setters. -/
def thresholdLoop (f : St → Bus → Nat → St × Bus × List Ev) :
    St × Bus × List Ev → Nat → St × Bus × List Ev
  | p, 0 => p
  | p, n + 1 =>
    let q := thresholdLoop f p n
    let r := f q.1 q.2.1 n
    (r.1, r.2.1, q.2.2 ++ r.2.2)

/-- The all-electrodes MPR121::setTouchThreshold (lines 264-289): no-op
when not initialized; otherwise stop if running, set every electrode's
threshold, and restore run mode. -/
def setTouchThresholdAll (s : St) (b : Bus) (threshold : Nat) : St × Bus × List Ev :=
  if isInitialized s then
    let was := s.running
    let p1 := if was then stop s b else (s, b, [])
    let p2 := thresholdLoop (fun s' b' e => setTouchThreshold s' b' e threshold)
      (p1.1, p1.2.1, []) ELECTRODE_COUNT
    let p3 := if was then run p2.1 p2.2.1 else (p2.1, p2.2.1, [])
    (p3.1, p3.2.1, p1.2.2 ++ p2.2.2 ++ p3.2.2)
  else (s, b, [])

/-- The per-electrode MPR121::setReleaseThreshold (lines 328-337). -/
def setReleaseThreshold (s : St) (b : Bus) (electrode threshold : Nat) : St × Bus × List Ev :=
  if ELECTRODE_COUNT ≤ electrode ∨ isInitialized s = false then (s, b, [])
  else setRegister s b (E0RTH + (electrode <<< 1)) threshold

/-- The all-electrodes MPR121::setReleaseThreshold (lines 302-326). -/
def setReleaseThresholdAll (s : St) (b : Bus) (threshold : Nat) : St × Bus × List Ev :=
  if isInitialized s then
    let was := s.running
    let p1 := if was then stop s b else (s, b, [])
    let p2 := thresholdLoop (fun s' b' e => setReleaseThreshold s' b' e threshold)
      (p1.1, p1.2.1, []) ELECTRODE_COUNT
    let p3 := if was then run p2.1 p2.2.1 else (p2.1, p2.2.1, [])
    (p3.1, p3.2.1, p1.2.2 ++ p2.2.2 ++ p3.2.2)
  else (s, b, [])

/-- MPR121::getTouchThreshold (lines 339-346): 0xFF sentinel for
out-of-range electrode or uninitialized handle, else a register read. -/
def getTouchThreshold (s : St) (b : Bus) (electrode : Nat) : Nat × St × Bus × List Ev :=
  if ELECTRODE_COUNT ≤ electrode ∨ isInitialized s = false then (0xFF, s, b, [])
  else getRegister s b (E0TTH + (electrode <<< 1))

/-- MPR121::getReleaseThreshold (lines 347-354). -/
def getReleaseThreshold (s : St) (b : Bus) (electrode : Nat) : Nat × St × Bus × List Ev :=
  if ELECTRODE_COUNT ≤ electrode ∨ isInitialized s = false then (0xFF, s, b, [])
  else getRegister s b (E0RTH + (electrode <<< 1))

/-- MPR121::setInterruptPin (lines 516-525): no-op when not initialized;
the host pinMode call touches no bus register. -/
def setInterruptPin (s : St) (_b : Bus) (pin : Nat) : St × List Ev :=
  if isInitialized s then ({ s with interrupt_pin := pin }, [])
  else (s, [])

/-- The proximity-mode argument of MPR121::setProximityMode. -/
inductive ProximityMode where
  | DISABLED
  | PROX0_1
  | PROX0_3
  | PROX0_11
deriving DecidableEq, Repr

/-- MPR121::setProximityMode (lines 527-572): no-op when not initialized;
otherwise stop if running, rewrite the ELEPROX bits of the ECR backup,
and restore run mode (which writes the modified backup). -/
def setProximityMode (s : St) (b : Bus) (mode : ProximityMode) : St × Bus × List Ev :=
  if isInitialized s then
    let was := s.running
    let p1 := if was then stop s b else (s, b, [])
    let s1 := p1.1
    let s2 :=
      match mode with
      | ProximityMode.DISABLED => { s1 with ecr_backup := bclr (bclr s1.ecr_backup 4) 5 }
      | ProximityMode.PROX0_1 => { s1 with ecr_backup := bclr (bset s1.ecr_backup 4) 5 }
      | ProximityMode.PROX0_3 => { s1 with ecr_backup := bset (bclr s1.ecr_backup 4) 5 }
      | ProximityMode.PROX0_11 => { s1 with ecr_backup := s1.ecr_backup ||| (3 <<< 4) }
    let p3 := if was then run s2 p1.2.1 else (s2, p1.2.1, [])
    (p3.1, p3.2.1, p1.2.2 ++ p3.2.2)
  else (s, b, [])

/-- MPR121::setDigitalPinCount (lines 574-594): no-op when not
initialized; clamp the pin count, stop if running, rewrite the low nibble
of the ECR backup, and restore run mode. -/
def setDigitalPinCount (s : St) (b : Bus) (pin_count : Nat) : St × Bus × List Ev :=
  if isInitialized s then
    let was := s.running
    let n := if DIGITAL_PIN_COUNT_MAX < pin_count then DIGITAL_PIN_COUNT_MAX else pin_count
    let p1 := if was then stop s b else (s, b, [])
    let s1 := p1.1
    let s2 := { s1 with ecr_backup :=
      (0x0F &&& ((ELECTRODE_COUNT - 1) - n)) ||| (s1.ecr_backup &&& 0xF0) }
    let p3 := if was then run s2 p1.2.1 else (s2, p1.2.1, [])
    (p3.1, p3.2.1, p1.2.2 ++ p3.2.2)
  else (s, b, [])

/-- The pin-mode argument of the driver's own pinMode overload. -/
inductive PinMode where
  | INPUT_PU
  | INPUT_PD
  | OUTPUT_HS
  | OUTPUT_LS
deriving DecidableEq, Repr

/-- A read-modify-write helper for the GPIO register sequences of pinMode:
read `reg`, combine with `f`, write back. -/
def rmwRegister (s : St) (b : Bus) (reg : Nat) (f : Nat → Nat) : St × Bus × List Ev :=
  let r := getRegister s b reg
  let w := setRegister r.2.1 r.2.2.1 reg (f r.1)
  (w.1, w.2.1, r.2.2.2 ++ w.2.2)

/-- Sequences two state-bus-trace steps. -/
def seq2 (p : St × Bus × List Ev) (f : St → Bus → St × Bus × List Ev) : St × Bus × List Ev :=
  let q := f p.1 p.2.1
  (q.1, q.2.1, p.2.2 ++ q.2.2)

/-- MPR121::pinMode with the driver's PinMode type (lines 596-647): only
valid for electrodes 4..11 on an initialized handle; otherwise performs
the EN/DIR/CTL0/CTL1 read-modify-write sequence for the mode. -/
def pinMode (s : St) (b : Bus) (electrode : Nat) (mode : PinMode) : St × Bus × List Ev :=
  if electrode < 4 ∨ 11 < electrode ∨ isInitialized s = false then (s, b, [])
  else
    let bitmask := 1 <<< (electrode - 4)
    match mode with
    | PinMode.INPUT_PU =>
      seq2 (seq2 (seq2 (rmwRegister s b EN (fun v => v ||| bitmask))
        (fun s' b' => rmwRegister s' b' DIR (fun v => v &&& (255 ^^^ bitmask))))
        (fun s' b' => rmwRegister s' b' CTL0 (fun v => v ||| bitmask)))
        (fun s' b' => rmwRegister s' b' CTL1 (fun v => v ||| bitmask))
    | PinMode.INPUT_PD =>
      seq2 (seq2 (seq2 (rmwRegister s b EN (fun v => v ||| bitmask))
        (fun s' b' => rmwRegister s' b' DIR (fun v => v &&& (255 ^^^ bitmask))))
        (fun s' b' => rmwRegister s' b' CTL0 (fun v => v ||| bitmask)))
        (fun s' b' => rmwRegister s' b' CTL1 (fun v => v &&& (255 ^^^ bitmask)))
    | PinMode.OUTPUT_HS =>
      seq2 (seq2 (seq2 (rmwRegister s b EN (fun v => v ||| bitmask))
        (fun s' b' => rmwRegister s' b' DIR (fun v => v ||| bitmask)))
        (fun s' b' => rmwRegister s' b' CTL0 (fun v => v ||| bitmask)))
        (fun s' b' => rmwRegister s' b' CTL1 (fun v => v ||| bitmask))
    | PinMode.OUTPUT_LS =>
      seq2 (seq2 (seq2 (rmwRegister s b EN (fun v => v ||| bitmask))
        (fun s' b' => rmwRegister s' b' DIR (fun v => v ||| bitmask)))
        (fun s' b' => rmwRegister s' b' CTL0 (fun v => v ||| bitmask)))
        (fun s' b' => rmwRegister s' b' CTL1 (fun v => v &&& (255 ^^^ bitmask)))

/-- MPR121::digitalWrite (lines 682-694): only electrodes 4..11 on an
initialized handle; write the SET or CLR register bit. -/
def digitalWrite (s : St) (b : Bus) (electrode val : Nat) : St × Bus × List Ev :=
  if electrode < 4 ∨ 11 < electrode ∨ isInitialized s = false then (s, b, [])
  else if val ≠ 0 then setRegister s b SET (1 <<< (electrode - 4))
  else setRegister s b CLR (1 <<< (electrode - 4))

/-- MPR121::digitalToggle (lines 696-704). -/
def digitalToggle (s : St) (b : Bus) (electrode : Nat) : St × Bus × List Ev :=
  if electrode < 4 ∨ 11 < electrode ∨ isInitialized s = false then (s, b, [])
  else setRegister s b TOG (1 <<< (electrode - 4))

/-- MPR121::digitalRead (lines 706-714): false sentinel for out-of-range
electrode or uninitialized handle, else bit `electrode-4` of DAT. -/
def digitalRead (s : St) (b : Bus) (electrode : Nat) : Bool × St × Bus × List Ev :=
  if electrode < 4 ∨ 11 < electrode ∨ isInitialized s = false then (false, s, b, [])
  else
    let r := getRegister s b DAT
    ((r.1 >>> (electrode - 4)) &&& 1 == 1, r.2.1, r.2.2.1, r.2.2.2)

/-- The PWM half-register update of MPR121::analogWrite (lines 736-770). -/
def pwmUpdate (s : St) (b : Bus) (electrode shiftedVal : Nat) : St × Bus × List Ev :=
  let reg :=
    match (electrode - 4) / 2 with
    | 0 => PWM0
    | 1 => PWM1
    | 2 => PWM2
    | _ => PWM3
  if (electrode - 4) % 2 = 0 then
    rmwRegister s b reg (fun v => (shiftedVal &&& 0x0F) ||| (v &&& 0xF0))
  else
    rmwRegister s b reg (fun v => ((shiftedVal &&& 0x0F) <<< 4) ||| (v &&& 0x0F))

/-- MPR121::analogWrite (lines 716-771): only electrodes 4..11 on an
initialized handle; write SET or CLR from the scaled value, then
read-modify-write the PWM half-register for the electrode. -/
def analogWrite (s : St) (b : Bus) (electrode value : Nat) : St × Bus × List Ev :=
  if electrode < 4 ∨ 11 < electrode ∨ isInitialized s = false then (s, b, [])
  else
    let shiftedVal := (value % 256) >>> 4
    let p1 :=
      if 0 < shiftedVal then setRegister s b SET (1 <<< (electrode - 4))
      else setRegister s b CLR (1 <<< (electrode - 4))
    seq2 p1 (fun s' b' => pwmUpdate s' b' electrode shiftedVal)

/-- MPR121::setSamplePeriod (lines 773-779): read AFE2 and write back its
top five bits combined with the three period bits.  Note: unlike every
other mutator this function has no isInitialized guard. -/
def setSamplePeriod (s : St) (b : Bus) (period : Nat) : St × Bus × List Ev :=
  let r := getRegister s b AFE2
  let w := setRegister r.2.1 r.2.2.1 AFE2 ((r.1 &&& 0xF8) ||| (period &&& 0x07))
  (w.1, w.2.1, r.2.2.2 ++ w.2.2)

/-- A bus on which every transaction succeeds, every register reads as
zero, and bursts deliver everything requested. -/
def okBus : Bus :=
  { regs := fun _ => 0
    writeOk := fun _ _ => true
    readOk := fun _ => true
    avail := fun _ n => n
    intLow := false }

/-- The bit test is Nat.testBit. -/
lemma btest_testBit (e bit : Nat) : btest e bit = e.testBit bit := by
  unfold btest
  rw [Nat.shiftLeft_eq, one_mul, Nat.and_two_pow]
  cases h : e.testBit bit <;> simp

/-- Setting a bit: the test at `i` is the old test, or `bit = i`. -/
lemma btest_bset (e bit i : Nat) : btest (bset e bit) i = (btest e i || decide (bit = i)) := by
  simp only [btest_testBit, bset, Nat.testBit_lor, Nat.shiftLeft_eq, one_mul,
    Nat.testBit_two_pow]

/-- Clearing a bit inside one byte: for `i < 8` the test at `i` is the old
test unless `bit = i`. -/
lemma btest_bclr (e bit i : Nat) (h : i < 8) :
    btest (bclr e bit) i = (btest e i && !decide (bit = i)) := by
  have h255 : Nat.testBit 255 i = true := by
    rw [show (255 : Nat) = 2 ^ 8 - 1 by norm_num, Nat.testBit_two_pow_sub_one]
    simpa using h
  simp only [btest_testBit, bclr, Nat.testBit_land, Nat.testBit_xor, Nat.shiftLeft_eq, one_mul]
  simp [h255, Nat.testBit_two_pow]

/-- busWrite leaves the device untouched except the written register, and
only when the transaction succeeds. -/
lemma busWrite_regs (s : St) (b : Bus) (reg value : Nat) :
    (busWrite s b reg value).2.1.regs =
      (if b.writeOk reg (value % 256) then
        fun r => if r = reg then value % 256 else b.regs r
       else b.regs) := by
  simp only [busWrite]
  split_ifs <;> rfl

/-- busWrite does not change the success oracles or the burst model. -/
lemma busWrite_oracles (s : St) (b : Bus) (reg value : Nat) :
    (busWrite s b reg value).2.1.writeOk = b.writeOk ∧
    (busWrite s b reg value).2.1.readOk = b.readOk ∧
    (busWrite s b reg value).2.1.avail = b.avail ∧
    (busWrite s b reg value).2.1.intLow = b.intLow := by
  simp only [busWrite]
  split_ifs <;> exact ⟨rfl, rfl, rfl, rfl⟩

/-- After busWrite the address-unknown flag is the outcome of the write. -/
lemma AU_busWrite (s : St) (b : Bus) (reg value : Nat) :
    btest (busWrite s b reg value).1.error_byte ADDRESS_UNKNOWN_BIT
      = !b.writeOk reg (value % 256) := by
  simp only [busWrite]
  split_ifs with h <;> simp [h, btest_bset, btest_bclr, ADDRESS_UNKNOWN_BIT]

/-- busWrite leaves every error bit other than address-unknown alone. -/
lemma other_busWrite (s : St) (b : Bus) (reg value bit : Nat) (hb : bit < 8)
    (hne : bit ≠ ADDRESS_UNKNOWN_BIT) :
    btest (busWrite s b reg value).1.error_byte bit = btest s.error_byte bit := by
  simp only [busWrite]
  have : ¬(ADDRESS_UNKNOWN_BIT = bit) := fun h => hne h.symm
  split_ifs with h <;> simp [btest_bset, btest_bclr, hb, this]

/-- After getRegister the address-unknown flag is the outcome of the read. -/
lemma AU_getRegister (s : St) (b : Bus) (reg : Nat) :
    btest (getRegister s b reg).2.1.error_byte ADDRESS_UNKNOWN_BIT = !b.readOk reg := by
  simp only [getRegister]
  split_ifs <;>
    simp_all [btest_bset, btest_bclr, ADDRESS_UNKNOWN_BIT, OVERCURRENT_FLAG_BIT,
      OUT_OF_RANGE_BIT]

/-- After getRegister the overcurrent flag is set exactly when TS2 was
read with bit 7 high - any other read clears it. -/
lemma OC_getRegister (s : St) (b : Bus) (reg : Nat) :
    btest (getRegister s b reg).2.1.error_byte OVERCURRENT_FLAG_BIT
      = decide (reg = TS2 ∧ (b.regs reg % 256) &&& 0x80 ≠ 0) := by
  simp only [getRegister]
  by_cases h2 : reg = TS2 ∧ (b.regs reg % 256) &&& 0x80 ≠ 0
  · obtain ⟨rfl, hv⟩ := h2
    split_ifs <;>
      simp_all [btest_bset, btest_bclr, ADDRESS_UNKNOWN_BIT, OVERCURRENT_FLAG_BIT,
        OUT_OF_RANGE_BIT]
  · split_ifs <;>
      simp_all [btest_bset, btest_bclr, ADDRESS_UNKNOWN_BIT, OVERCURRENT_FLAG_BIT,
        OUT_OF_RANGE_BIT]

/-- After getRegister the out-of-range flag is set exactly when OORS1 or
OORS2 was read with a nonzero value - any other read clears it. -/
lemma OOR_getRegister (s : St) (b : Bus) (reg : Nat) :
    btest (getRegister s b reg).2.1.error_byte OUT_OF_RANGE_BIT
      = decide ((reg = OORS1 ∨ reg = OORS2) ∧ b.regs reg % 256 ≠ 0) := by
  simp only [getRegister]
  split_ifs <;>
    simp_all [btest_bset, btest_bclr, ADDRESS_UNKNOWN_BIT, OVERCURRENT_FLAG_BIT,
      OUT_OF_RANGE_BIT]

/-- getRegister leaves the not-initialized and readback-failure bits alone. -/
lemma other_getRegister (s : St) (b : Bus) (reg bit : Nat) (hb : bit < 8)
    (h1 : bit ≠ ADDRESS_UNKNOWN_BIT) (h2 : bit ≠ OVERCURRENT_FLAG_BIT)
    (h3 : bit ≠ OUT_OF_RANGE_BIT) :
    btest (getRegister s b reg).2.1.error_byte bit = btest s.error_byte bit := by
  have e1 : ¬(ADDRESS_UNKNOWN_BIT = bit) := fun h => h1 h.symm
  have e2 : ¬(OVERCURRENT_FLAG_BIT = bit) := fun h => h2 h.symm
  have e3 : ¬(OUT_OF_RANGE_BIT = bit) := fun h => h3 h.symm
  simp only [getRegister]
  split_ifs <;> simp [btest_bset, btest_bclr, hb, e1, e2, e3]

/-- getRegister does not change the bus. -/
lemma bus_getRegister (s : St) (b : Bus) (reg : Nat) :
    (getRegister s b reg).2.2.1 = b := rfl

/-- getRegister returns the device byte. -/
lemma value_getRegister (s : St) (b : Bus) (reg : Nat) :
    (getRegister s b reg).1 = b.regs reg % 256 := rfl

/-- busWrite preserves initialization. -/
lemma isInitialized_busWrite (s : St) (b : Bus) (reg value : Nat) :
    isInitialized (busWrite s b reg value).1 = isInitialized s := by
  unfold isInitialized
  rw [other_busWrite]
  · exact Nat.zero_lt_succ 7
  · decide

/-- getRegister preserves initialization. -/
lemma isInitialized_getRegister (s : St) (b : Bus) (reg : Nat) :
    isInitialized (getRegister s b reg).2.1 = isInitialized s := by
  unfold isInitialized
  rw [other_getRegister] <;> decide

/-- All downstream operations are frozen on this handle: every data
refresh, query, and configuration mutator is a no-op or returns its
sentinel, issuing no bus transaction. -/
def noninitFrozen (s : St) (b : Bus) : Prop :=
  updateTouchData s b = (s, b, []) ∧
  updateBaselineData s b = (false, s, b, []) ∧
  updateFilteredData s b = (false, s, b, []) ∧
  getTouchCount s = 0 ∧
  (∀ e, touched s e = false) ∧
  (∀ e, getBaselineData s e = 0xFFFF) ∧
  (∀ e, getFilteredData s e = 0xFFFF) ∧
  (∀ e, isNewTouch s e = false) ∧
  (∀ e, isNewRelease s e = false) ∧
  (∀ e, getPreviousTouchData s e = false) ∧
  (∀ e, getTouchThreshold s b e = (0xFF, s, b, [])) ∧
  (∀ e, getReleaseThreshold s b e = (0xFF, s, b, [])) ∧
  (∀ e t, setTouchThreshold s b e t = (s, b, [])) ∧
  (∀ t, setTouchThresholdAll s b t = (s, b, [])) ∧
  (∀ e t, setReleaseThreshold s b e t = (s, b, [])) ∧
  (∀ t, setReleaseThresholdAll s b t = (s, b, [])) ∧
  run s b = (s, b, []) ∧
  stop s b = (s, b, []) ∧
  (∀ p, setInterruptPin s b p = (s, [])) ∧
  (∀ m, setProximityMode s b m = (s, b, [])) ∧
  (∀ n, setDigitalPinCount s b n = (s, b, [])) ∧
  (∀ e m, pinMode s b e m = (s, b, [])) ∧
  (∀ e v, digitalWrite s b e v = (s, b, [])) ∧
  (∀ e, digitalToggle s b e = (s, b, [])) ∧
  (∀ e, digitalRead s b e = (false, s, b, [])) ∧
  (∀ e v, analogWrite s b e v = (s, b, []))

/-- Claim C1, counterexample: the claim says every downstream operation
including setSamplePeriod issues no register access while the
not-initialized flag is set, but on the freshly constructed (hence
not-initialized) handle setSamplePeriod issues a register read and a
register write. -/
theorem claim_C1_cex :
    isInitialized initState = false ∧
    ((setSamplePeriod initState okBus 0).2.2).isEmpty = false ∧
    (setSamplePeriod initState okBus 0).2.2 = [Ev.rd AFE2 true, Ev.wr AFE2 0 true] := by
  decide

/-- Claim C1 (amended): with the not-initialized flag set, every
downstream data-refresh, query, and configuration-mutator operation
except setSamplePeriod is a no-op or returns its sentinel failure value
and issues no device register read or write; setSamplePeriod, which lacks
the isInitialized guard, issues its register read and write regardless. -/
theorem claim_C1_noninit_noop (s : St) (b : Bus) (p : Nat)
    (h : isInitialized s = false) :
    noninitFrozen s b ∧ ((setSamplePeriod s b p).2.2).isEmpty = false := by
  constructor
  · refine ⟨?_, ?_, ?_, ?_, ?_, ?_, ?_, ?_, ?_, ?_, ?_, ?_, ?_, ?_, ?_, ?_, ?_, ?_,
      ?_, ?_, ?_, ?_, ?_, ?_, ?_, ?_⟩ <;>
      simp [updateTouchData, updateBaselineData, updateFilteredData, getTouchCount,
        touched, getBaselineData, getFilteredData, isNewTouch, isNewRelease,
        getPreviousTouchData, getTouchThreshold, getReleaseThreshold,
        setTouchThreshold, setTouchThresholdAll, setReleaseThreshold,
        setReleaseThresholdAll, run, stop, setInterruptPin, setProximityMode,
        setDigitalPinCount, pinMode, digitalWrite, digitalToggle, digitalRead,
        analogWrite, h]
  · simp [setSamplePeriod, getRegister]

/-- Claim C1, witness for the amended theorem at the constructed handle. -/
theorem claim_C1_noninit_noop_w :
    isInitialized initState = false ∧
    noninitFrozen initState okBus ∧
    ((setSamplePeriod initState okBus 0).2.2).isEmpty = false :=
  ⟨by decide, (claim_C1_noninit_noop initState okBus 0 (by decide)).1,
    (claim_C1_noninit_noop initState okBus 0 (by decide)).2⟩

/-- The sentinel results of the electrode-indexed accessors at an
out-of-range electrode, with no state change and no bus transaction. -/
def oorSentinels (s : St) (b : Bus) (e : Nat) : Prop :=
  touched s e = false ∧
  getBaselineData s e = 0xFFFF ∧
  getFilteredData s e = 0xFFFF ∧
  isNewTouch s e = false ∧
  isNewRelease s e = false ∧
  getPreviousTouchData s e = false ∧
  getTouchThreshold s b e = (0xFF, s, b, []) ∧
  getReleaseThreshold s b e = (0xFF, s, b, [])

/-- Claim C9: for every electrode index outside the valid range, every
accessor returns its defined sentinel or false without issuing any bus
transaction (for digitalRead the valid range is 4..11). -/
theorem claim_C9_oor_sentinels (s : St) (b : Bus) (e : Nat) :
    (ELECTRODE_COUNT ≤ e → oorSentinels s b e) ∧
    (e < 4 ∨ 11 < e → digitalRead s b e = (false, s, b, [])) := by
  constructor
  · intro h
    refine ⟨?_, ?_, ?_, ?_, ?_, ?_, ?_, ?_⟩ <;>
      simp [touched, getBaselineData, getFilteredData, isNewTouch, isNewRelease,
        getPreviousTouchData, getTouchThreshold, getReleaseThreshold, oorSentinels, h]
  · intro h
    rcases h with h | h <;> simp [digitalRead, h]

/-- Claim C9, witness at electrode 13 (out of range for both families). -/
theorem claim_C9_oor_sentinels_w :
    ELECTRODE_COUNT ≤ 13 ∧ ((13 : Nat) < 4 ∨ 11 < 13) ∧
    oorSentinels initState okBus 13 ∧
    digitalRead initState okBus 13 = (false, initState, okBus, []) :=
  ⟨by decide, by decide, (claim_C9_oor_sentinels initState okBus 13).1 (by decide),
    (claim_C9_oor_sentinels initState okBus 13).2 (by decide)⟩

/-- Claim C10: clearError zeroes the whole error byte including the
not-initialized bit, so afterwards - even on a handle that was never
successfully initialized - isInitialized reports true and the
initialization-gated operations proceed to issue bus transactions. -/
theorem claim_C10_clearError_unlocks (s : St) (b : Bus) :
    isInitialized (clearError s) = true ∧
    ((updateTouchData (clearError s) b).2.2).isEmpty = false ∧
    ((updateBaselineData (clearError s) b).2.2.2).isEmpty = false ∧
    ((updateFilteredData (clearError s) b).2.2.2).isEmpty = false ∧
    ((stop (clearError s) b).2.2).isEmpty = false ∧
    ((run (clearError s) b).2.2).isEmpty = false ∧
    ((getTouchThreshold (clearError s) b 0).2.2.2).isEmpty = false ∧
    ((digitalRead (clearError s) b 5).2.2.2).isEmpty = false := by
  have hinit : isInitialized (clearError s) = true := by
    simp [isInitialized, clearError, btest]
  refine ⟨hinit, ?_, ?_, ?_, ?_, ?_, ?_, ?_⟩
  · simp [updateTouchData, getRegister, hinit]
  · by_cases hg : b.avail E0BV ELECTRODE_COUNT = ELECTRODE_COUNT <;>
      simp [updateBaselineData, hinit, hg]
  · by_cases hg : b.avail E0FDL 26 = 26 <;>
      simp [updateFilteredData, hinit, hg]
  · simp [stop, setRegisterECR, busWrite, getRegister, hinit]
  · simp [run, setRegisterECR, busWrite, hinit]
  · simp [getTouchThreshold, getRegister, hinit, ELECTRODE_COUNT]
  · simp [digitalRead, getRegister, hinit]

/-- A handle with the overcurrent and out-of-range flags set and every
other flag clear (in particular it is initialized). -/
def faultState : St :=
  { initState with error_byte := bset (bset 0 OVERCURRENT_FLAG_BIT) OUT_OF_RANGE_BIT }

/-- Claim C2, counterexample: with the overcurrent and out-of-range flags
set, a successful read of E0TTH - a register that is none of the
fault-status registers - clears both flags instead of leaving them
unchanged. -/
theorem claim_C2_cex :
    btest faultState.error_byte OVERCURRENT_FLAG_BIT = true ∧
    btest faultState.error_byte OUT_OF_RANGE_BIT = true ∧
    E0TTH ≠ TS2 ∧ E0TTH ≠ OORS1 ∧ E0TTH ≠ OORS2 ∧
    btest (getRegister faultState okBus E0TTH).2.1.error_byte OVERCURRENT_FLAG_BIT = false ∧
    btest (getRegister faultState okBus E0TTH).2.1.error_byte OUT_OF_RANGE_BIT = false := by
  decide

/-- Claim C2 (amended): every register read rewrites the overcurrent flag
(set exactly when TS2 is read with bit 7 high, cleared by any other read)
and the out-of-range flag (set exactly when OORS1 or OORS2 is read with a
nonzero value, cleared by any other read), rewrites the address-unknown
flag from the transaction outcome, and leaves the not-initialized and
readback-failure flags unchanged; so a read of a non-fault register
clears the overcurrent and out-of-range flags rather than leaving them
unchanged, and only clearError or a later flag-rewriting transaction can
change the remaining flags. -/
theorem claim_C2_read_rewrites_flags (s : St) (b : Bus) (reg : Nat) :
    btest (getRegister s b reg).2.1.error_byte OVERCURRENT_FLAG_BIT
      = decide (reg = TS2 ∧ (b.regs reg % 256) &&& 0x80 ≠ 0) ∧
    btest (getRegister s b reg).2.1.error_byte OUT_OF_RANGE_BIT
      = decide ((reg = OORS1 ∨ reg = OORS2) ∧ b.regs reg % 256 ≠ 0) ∧
    btest (getRegister s b reg).2.1.error_byte ADDRESS_UNKNOWN_BIT = !b.readOk reg ∧
    btest (getRegister s b reg).2.1.error_byte NOT_INITIALIZED_BIT
      = btest s.error_byte NOT_INITIALIZED_BIT ∧
    btest (getRegister s b reg).2.1.error_byte READBACK_FAIL_BIT
      = btest s.error_byte READBACK_FAIL_BIT :=
  ⟨OC_getRegister s b reg, OOR_getRegister s b reg, AU_getRegister s b reg,
    other_getRegister s b reg NOT_INITIALIZED_BIT (by decide) (by decide) (by decide)
      (by decide),
    other_getRegister s b reg READBACK_FAIL_BIT (by decide) (by decide) (by decide)
      (by decide)⟩

/-- What getError returns, as a function of the flags at entry and the
bus: the OORS1/OORS2 re-reads inside getError rewrite the
address-unknown, overcurrent and out-of-range flags before the precedence
chain runs, so the overcurrent flag is always clear at that point, the
address-unknown flag reflects only the OORS2 read, and the out-of-range
flag reflects only the fresh OORS2 value. -/
lemma getError_spec (s : St) (b : Bus) :
    (getError s b).1 =
      (if btest s.error_byte NOT_INITIALIZED_BIT then Error.NOT_INITIALIZED
       else if !b.readOk OORS2 then Error.ADDRESS_UNKNOWN
       else if btest s.error_byte READBACK_FAIL_BIT then Error.READBACK_FAIL
       else if b.regs OORS2 % 256 ≠ 0 then Error.OUT_OF_RANGE
       else Error.NO_ERROR) := by
  have hNI : btest (getRegister (getRegister s b OORS1).2.1 b OORS2).2.1.error_byte
      NOT_INITIALIZED_BIT = btest s.error_byte NOT_INITIALIZED_BIT := by
    rw [other_getRegister _ _ _ NOT_INITIALIZED_BIT (by decide) (by decide) (by decide)
      (by decide),
      other_getRegister _ _ _ NOT_INITIALIZED_BIT (by decide) (by decide) (by decide)
      (by decide)]
  have hRB : btest (getRegister (getRegister s b OORS1).2.1 b OORS2).2.1.error_byte
      READBACK_FAIL_BIT = btest s.error_byte READBACK_FAIL_BIT := by
    rw [other_getRegister _ _ _ READBACK_FAIL_BIT (by decide) (by decide) (by decide)
      (by decide),
      other_getRegister _ _ _ READBACK_FAIL_BIT (by decide) (by decide) (by decide)
      (by decide)]
  unfold getError
  simp only [bus_getRegister, AU_getRegister, OC_getRegister, OOR_getRegister,
    isInitialized, hNI, hRB]
  simp [OORS1, OORS2, TS2]

/-- A write to a register at or above CTL0 (and different from ECR) is a
plain bus write, with no stop/run bracket. -/
lemma setRegister_high (s : St) (b : Bus) (reg value : Nat) (h1 : reg ≠ ECR)
    (h2 : CTL0 ≤ reg) : setRegister s b reg value = busWrite s b reg value := by
  simp [setRegister, h1, Nat.not_lt.mpr h2]

/-- busWrite leaves every other device register alone. -/
lemma busWrite_regs_other (s : St) (b : Bus) (reg value r : Nat) (h : r ≠ reg) :
    (busWrite s b reg value).2.1.regs r = b.regs r := by
  simp only [busWrite]
  split_ifs <;> simp [h]

/-- A conditional set-else-clear of one flag leaves every other (byte)
flag alone. -/
lemma btest_setflag (x : St) (c : Prop) [Decidable c] (bit i : Nat) (hi : i < 8)
    (hne : bit ≠ i) :
    btest (if c then { x with error_byte := bset x.error_byte bit }
           else { x with error_byte := bclr x.error_byte bit }).error_byte i
      = btest x.error_byte i := by
  have hb : ¬(bit = i) := hne
  split_ifs <;> simp [btest_bset, btest_bclr, hi, hb]

/-- A conditional set-else-clear of one flag makes that flag the value of
the condition. -/
lemma btest_setflag_self (x : St) (c : Prop) [Decidable c] (bit : Nat) (hb : bit < 8) :
    btest (if c then { x with error_byte := bset x.error_byte bit }
           else { x with error_byte := bclr x.error_byte bit }).error_byte bit
      = decide c := by
  split_ifs with h <;> simp [btest_bset, btest_bclr, hb, h]

/-- getError leaves the bus unchanged. -/
lemma bus_getError (s : St) (b : Bus) : (getError s b).2.2.1 = b := rfl

/-- getError's internal reads leave the not-initialized flag alone. -/
lemma NI_getError (s : St) (b : Bus) :
    btest (getError s b).2.1.error_byte NOT_INITIALIZED_BIT
      = btest s.error_byte NOT_INITIALIZED_BIT := by
  show btest (getRegister (getRegister s b OORS1).2.1 b OORS2).2.1.error_byte
      NOT_INITIALIZED_BIT = _
  rw [other_getRegister _ _ _ NOT_INITIALIZED_BIT (by decide) (by decide) (by decide)
    (by decide),
    other_getRegister _ _ _ NOT_INITIALIZED_BIT (by decide) (by decide) (by decide)
    (by decide)]

/-- getError's internal reads leave the readback-failure flag alone. -/
lemma RB_getError (s : St) (b : Bus) :
    btest (getError s b).2.1.error_byte READBACK_FAIL_BIT
      = btest s.error_byte READBACK_FAIL_BIT := by
  show btest (getRegister (getRegister s b OORS1).2.1 b OORS2).2.1.error_byte
      READBACK_FAIL_BIT = _
  rw [other_getRegister _ _ _ READBACK_FAIL_BIT (by decide) (by decide) (by decide)
    (by decide),
    other_getRegister _ _ _ READBACK_FAIL_BIT (by decide) (by decide) (by decide)
    (by decide)]

/-- After the reset checks: the not-initialized flag is untouched, the
readback-failure flag records whether AFE2 read back as 0x24, and the
read oracle and the OORS2/AFE2 registers of the bus are unchanged. -/
lemma resetChecks_facts (s : St) (b : Bus) :
    btest (resetChecks s b).1.error_byte NOT_INITIALIZED_BIT
      = btest s.error_byte NOT_INITIALIZED_BIT ∧
    btest (resetChecks s b).1.error_byte READBACK_FAIL_BIT
      = decide (b.regs AFE2 % 256 ≠ 0x24) ∧
    (resetChecks s b).2.1.readOk = b.readOk ∧
    (resetChecks s b).2.1.regs OORS2 = b.regs OORS2 := by
  have hw := setRegister_high s b SRST 0x63 (by decide) (by decide)
  have hAFE2 : (busWrite s b SRST 0x63).2.1.regs AFE2 = b.regs AFE2 :=
    busWrite_regs_other s b SRST 0x63 AFE2 (by decide)
  have hOORS2 : (busWrite s b SRST 0x63).2.1.regs OORS2 = b.regs OORS2 :=
    busWrite_regs_other s b SRST 0x63 OORS2 (by decide)
  refine ⟨?_, ?_, ?_, ?_⟩
  · show btest (resetChecks s b).1.error_byte NOT_INITIALIZED_BIT = _
    simp only [resetChecks, hw, value_getRegister, bus_getRegister]
    rw [btest_setflag _ _ _ _ (by decide) (by decide),
      other_getRegister _ _ _ NOT_INITIALIZED_BIT (by decide) (by decide) (by decide)
      (by decide),
      btest_setflag _ _ _ _ (by decide) (by decide),
      other_getRegister _ _ _ NOT_INITIALIZED_BIT (by decide) (by decide) (by decide)
      (by decide),
      other_busWrite _ _ _ _ _ (by decide) (by decide)]
  · show btest (resetChecks s b).1.error_byte READBACK_FAIL_BIT = _
    simp only [resetChecks, hw, value_getRegister, bus_getRegister]
    rw [btest_setflag _ _ _ _ (by decide) (by decide),
      other_getRegister _ _ _ READBACK_FAIL_BIT (by decide) (by decide) (by decide)
      (by decide),
      btest_setflag_self _ _ _ (by decide), hAFE2]
  · show (resetChecks s b).2.1.readOk = b.readOk
    simp only [resetChecks, hw, bus_getRegister]
    exact (busWrite_oracles s b SRST 0x63).2.1
  · show (resetChecks s b).2.1.regs OORS2 = b.regs OORS2
    simp only [resetChecks, hw, bus_getRegister]
    exact hOORS2

/-- A handle with only the overcurrent flag set (initialized, no other
error). -/
def overcurrentState : St :=
  { initState with error_byte := 1 <<< OVERCURRENT_FLAG_BIT }

/-- Claim C4, counterexample: with exactly the overcurrent flag currently
set, getError does not report OVERCURRENT_FLAG - its own OORS1/OORS2
reads clear the flag first and it reports NO_ERROR. -/
theorem claim_C4_cex :
    btest overcurrentState.error_byte OVERCURRENT_FLAG_BIT = true ∧
    isInitialized overcurrentState = true ∧
    btest overcurrentState.error_byte ADDRESS_UNKNOWN_BIT = false ∧
    btest overcurrentState.error_byte READBACK_FAIL_BIT = false ∧
    btest overcurrentState.error_byte OUT_OF_RANGE_BIT = false ∧
    (getError overcurrentState okBus).1 = Error.NO_ERROR := by
  decide

/-- Claim C4 (amended): getError reports one error chosen by the fixed
precedence chain, but over the flags as they stand after its own OORS1
and OORS2 re-reads: not-initialized and readback-failure keep their
entry values (so not-initialized together with anything else still
reports NOT_INITIALIZED), the address-unknown flag is the outcome of the
OORS2 read, the out-of-range flag is the fresh OORS2 value, and the
overcurrent flag has always just been cleared, so OVERCURRENT_FLAG is
never reported. -/
theorem claim_C4_getError_precedence (s : St) (b : Bus) :
    (getError s b).1 =
      (if btest s.error_byte NOT_INITIALIZED_BIT then Error.NOT_INITIALIZED
       else if !b.readOk OORS2 then Error.ADDRESS_UNKNOWN
       else if btest s.error_byte READBACK_FAIL_BIT then Error.READBACK_FAIL
       else if b.regs OORS2 % 256 ≠ 0 then Error.OUT_OF_RANGE
       else Error.NO_ERROR) :=
  getError_spec s b

/-- A bus showing overcurrent: TS2 reads 0x80, AFE2 reads back its
default 0x24, the out-of-range registers read zero, every transaction
succeeds. -/
def overcurrentBus : Bus :=
  { okBus with regs := fun r => if r = TS2 then 0x80 else if r = AFE2 then 0x24 else 0 }

/-- An initialized handle with a clear error byte. -/
def readyState : St := { initState with error_byte := 0 }

/-- Claim C3, counterexample: on an initialized handle against a device
whose TS2 read shows the overcurrent bit (readback fine, out-of-range
registers zero, transactions succeeding), the overcurrent flag is set
right after reset's checks, yet reset returns success - the claim demands
failure whenever overcurrent is present at that point. -/
theorem claim_C3_cex :
    btest (resetChecks readyState overcurrentBus).1.error_byte OVERCURRENT_FLAG_BIT
      = true ∧
    isInitialized (resetChecks readyState overcurrentBus).1 = true ∧
    (reset readyState overcurrentBus).1 = true := by
  decide

/-- Claim C3 (amended): reset() returns success if and only if the
getError evaluation that follows the checks reports NOT_INITIALIZED or
NO_ERROR; because getError re-reads OORS1/OORS2 and thereby clears the
overcurrent flag, this amounts to: the handle was not initialized, or
the OORS2 read succeeds, AFE2 read back as 0x24, and OORS2 reads zero.
An overcurrent flag raised by the TS2 check does not itself fail the
reset. -/
theorem claim_C3_reset_success (s : St) (b : Bus) :
    (reset s b).1 =
      (!(isInitialized s) ||
        (b.readOk OORS2 && (b.regs AFE2 % 256 == 0x24) && (b.regs OORS2 % 256 == 0))) := by
  obtain ⟨hNI, hRB, hRok, hRegs⟩ := resetChecks_facts s b
  have hg1 : (getError (resetChecks s b).1 (resetChecks s b).2.1).1 =
      (if btest s.error_byte NOT_INITIALIZED_BIT then Error.NOT_INITIALIZED
       else if !b.readOk OORS2 then Error.ADDRESS_UNKNOWN
       else if decide (b.regs AFE2 % 256 ≠ 0x24) = true then Error.READBACK_FAIL
       else if b.regs OORS2 % 256 ≠ 0 then Error.OUT_OF_RANGE
       else Error.NO_ERROR) := by
    rw [getError_spec, hNI, hRB, hRok, hRegs]
  have hg2 : (getError (getError (resetChecks s b).1 (resetChecks s b).2.1).2.1
      (getError (resetChecks s b).1 (resetChecks s b).2.1).2.2.1).1 =
      (if btest s.error_byte NOT_INITIALIZED_BIT then Error.NOT_INITIALIZED
       else if !b.readOk OORS2 then Error.ADDRESS_UNKNOWN
       else if decide (b.regs AFE2 % 256 ≠ 0x24) = true then Error.READBACK_FAIL
       else if b.regs OORS2 % 256 ≠ 0 then Error.OUT_OF_RANGE
       else Error.NO_ERROR) := by
    rw [bus_getError, getError_spec, NI_getError, RB_getError, hNI, hRB, hRok, hRegs]
  show (reset s b).1 = _
  unfold reset
  by_cases hni : btest s.error_byte NOT_INITIALIZED_BIT
  · simp [hg1, hni, isInitialized]
  · simp only [hg1, hg2, hni, if_false, isInitialized]
    by_cases h1 : b.readOk OORS2 <;>
      by_cases h2 : b.regs AFE2 % 256 = 0x24 <;>
        by_cases h3 : b.regs OORS2 % 256 = 0 <;>
          simp [h1, h2, h3, hni]

/-- The outcome carried by a read or write transaction event (bursts do
not update the address-unknown flag). -/
def evOutcome : Ev → Option Bool
  | Ev.wr _ _ ok => some ok
  | Ev.rd _ ok => some ok
  | Ev.burst _ _ _ => none

/-- The outcome of the last read/write transaction in a trace. -/
def lastOutcome (tr : List Ev) : Option Bool :=
  (tr.filterMap evOutcome).getLast?

/-- The single event emitted by busWrite. -/
lemma busWrite_trace (s : St) (b : Bus) (reg value : Nat) :
    (busWrite s b reg value).2.2
      = [Ev.wr reg (value % 256) (b.writeOk reg (value % 256))] := by
  simp only [busWrite]

/-- The single event emitted by getRegister. -/
lemma getRegister_trace (s : St) (b : Bus) (reg : Nat) :
    (getRegister s b reg).2.2.2 = [Ev.rd reg (b.readOk reg)] := rfl

/-- Appending a write event makes it the last transaction. -/
lemma lastOutcome_concat_wr (t : List Ev) (r v : Nat) (ok : Bool) :
    lastOutcome (t ++ [Ev.wr r v ok]) = some ok := by
  simp [lastOutcome, evOutcome, List.filterMap_append]

/-- setRegisterECR preserves initialization. -/
lemma isInitialized_setRegisterECR (s : St) (b : Bus) (value : Nat) :
    isInitialized (setRegisterECR s b value).1 = isInitialized s := by
  unfold setRegisterECR
  rw [isInitialized_busWrite]
  rfl

/-- stop preserves initialization. -/
lemma isInitialized_stop (s : St) (b : Bus) :
    isInitialized (stop s b).1 = isInitialized s := by
  by_cases h : isInitialized s
  · simp only [stop, if_pos h]
    rw [isInitialized_setRegisterECR]
    exact isInitialized_getRegister s b ECR
  · simp only [stop, if_neg h]

/-- setRegister at the ECR register is its ECR branch. -/
lemma setRegister_ecr (s : St) (b : Bus) (value : Nat) :
    setRegister s b ECR value = setRegisterECR s b value := by
  simp [setRegister]

/-- A write below CTL0 while not running is a plain bus write. -/
lemma setRegister_low_idle (s : St) (b : Bus) (reg value : Nat) (h1 : reg ≠ ECR)
    (h2 : reg < CTL0) (h3 : s.running = false) :
    setRegister s b reg value = busWrite s b reg value := by
  simp [setRegister, h1, h2, h3]

/-- A write below CTL0 while running is the stop / write / run bracket. -/
lemma setRegister_bracket (s : St) (b : Bus) (reg value : Nat) (h1 : reg ≠ ECR)
    (h2 : reg < CTL0) (h3 : s.running = true) :
    setRegister s b reg value =
      ((run (busWrite (stop s b).1 (stop s b).2.1 reg value).1
          (busWrite (stop s b).1 (stop s b).2.1 reg value).2.1).1,
       (run (busWrite (stop s b).1 (stop s b).2.1 reg value).1
          (busWrite (stop s b).1 (stop s b).2.1 reg value).2.1).2.1,
       (stop s b).2.2 ++ (busWrite (stop s b).1 (stop s b).2.1 reg value).2.2 ++
         (run (busWrite (stop s b).1 (stop s b).2.1 reg value).1
            (busWrite (stop s b).1 (stop s b).2.1 reg value).2.1).2.2) := by
  simp [setRegister, h1, h2, h3]

/-- run on an initialized handle writes the backup through the ECR
branch. -/
lemma run_inited (s : St) (b : Bus) (h : isInitialized s = true) :
    run s b = setRegisterECR s b s.ecr_backup := by
  simp [run, h]

/-- The one-write shape of setRegisterECR: its trace is the single ECR
write and its final address-unknown flag is that write's outcome. -/
lemma setRegisterECR_au (s : St) (b : Bus) (value : Nat) :
    (setRegisterECR s b value).2.2
      = [Ev.wr ECR (value % 256) (b.writeOk ECR (value % 256))] ∧
    btest (setRegisterECR s b value).1.error_byte ADDRESS_UNKNOWN_BIT
      = !b.writeOk ECR (value % 256) := by
  unfold setRegisterECR
  exact ⟨busWrite_trace _ _ _ _, AU_busWrite _ _ _ _⟩

/-- Claim C7: after every transaction issued by a register write or a
register read, the address-unknown flag reflects that transaction's
outcome: the primitive write and the register read set it exactly on
failure, and for a full setRegister call (including the stop/run
bracket) the final flag is the negated outcome of the last transaction
of its trace. -/
theorem claim_C7_AU_tracks_last (s : St) (b : Bus) (reg value : Nat) :
    (btest (busWrite s b reg value).1.error_byte ADDRESS_UNKNOWN_BIT
      = !b.writeOk reg (value % 256)) ∧
    (btest (getRegister s b reg).2.1.error_byte ADDRESS_UNKNOWN_BIT = !b.readOk reg) ∧
    (lastOutcome (getRegister s b reg).2.2.2 = some (b.readOk reg)) ∧
    (∃ ok, lastOutcome (setRegister s b reg value).2.2 = some ok ∧
      btest (setRegister s b reg value).1.error_byte ADDRESS_UNKNOWN_BIT = !ok) := by
  refine ⟨AU_busWrite s b reg value, AU_getRegister s b reg, ?_, ?_⟩
  · rw [getRegister_trace]
    simp [lastOutcome, evOutcome]
  · by_cases h1 : reg = ECR
    · subst h1
      rw [setRegister_ecr]
      refine ⟨b.writeOk ECR (value % 256), ?_, (setRegisterECR_au s b value).2⟩
      rw [(setRegisterECR_au s b value).1]
      simp [lastOutcome, evOutcome]
    · by_cases h2 : reg < CTL0
      · by_cases h3 : s.running
        · rw [setRegister_bracket s b reg value h1 h2 h3]
          by_cases h4 : isInitialized s
          · have hstop : isInitialized (stop s b).1 = true := by
              rw [isInitialized_stop]; exact h4
            have hmid : isInitialized (busWrite (stop s b).1 (stop s b).2.1 reg value).1
                = true := by rw [isInitialized_busWrite]; exact hstop
            rw [run_inited _ _ hmid]
            refine ⟨(busWrite (stop s b).1 (stop s b).2.1 reg value).2.1.writeOk ECR
              ((busWrite (stop s b).1 (stop s b).2.1 reg value).1.ecr_backup % 256),
              ?_, (setRegisterECR_au _ _ _).2⟩
            rw [(setRegisterECR_au _ _ _).1]
            rw [lastOutcome, List.filterMap_append, List.filterMap_append]
            simp [lastOutcome, evOutcome]
          · have hstop : stop s b = (s, b, []) := by
              simp only [stop, if_neg h4]
            have hmid : isInitialized (busWrite s b reg value).1 = false := by
              rw [isInitialized_busWrite]
              simpa using h4
            rw [hstop]
            simp only []
            rw [show run (busWrite s b reg value).1 (busWrite s b reg value).2.1
                = ((busWrite s b reg value).1, (busWrite s b reg value).2.1, []) by
              simp [run, hmid]]
            refine ⟨b.writeOk reg (value % 256), ?_, AU_busWrite s b reg value⟩
            rw [busWrite_trace]
            simp [lastOutcome, evOutcome]
        · rw [setRegister_low_idle s b reg value h1 h2 (by simpa using h3)]
          refine ⟨b.writeOk reg (value % 256), ?_, AU_busWrite s b reg value⟩
          rw [busWrite_trace]
          simp [lastOutcome, evOutcome]
      · rw [setRegister_high s b reg value h1 (Nat.le_of_not_lt h2)]
        refine ⟨b.writeOk reg (value % 256), ?_, AU_busWrite s b reg value⟩
        rw [busWrite_trace]
        simp [lastOutcome, evOutcome]

/-- busWrite does not touch the handle's ECR backup. -/
lemma busWrite_ecr_backup (s : St) (b : Bus) (reg value : Nat) :
    (busWrite s b reg value).1.ecr_backup = s.ecr_backup := by
  simp only [busWrite]
  split_ifs <;> rfl

/-- The enable register is restored exactly by the stop/run pair: the
full byte (hence both the electrode-enable bits and the top two bits)
ends equal to its pre-stop value, and while stopped the top two bits are
preserved and the electrode-enable bits are cleared. -/
def stopRunRestores (s : St) (b : Bus) : Prop :=
  (run (stop s b).1 (stop s b).2.1).2.1.regs ECR = b.regs ECR ∧
  ((run (stop s b).1 (stop s b).2.1).2.1.regs ECR) &&& 0x3F = b.regs ECR &&& 0x3F ∧
  ((run (stop s b).1 (stop s b).2.1).2.1.regs ECR) &&& 0xC0 = b.regs ECR &&& 0xC0 ∧
  (stop s b).2.1.regs ECR &&& 0xC0 = b.regs ECR &&& 0xC0 ∧
  (stop s b).2.1.regs ECR &&& 0x3F = 0

/-- Claim C5: on an initialized handle, stop() followed by run() writes
back exactly the electrode-enable bits present before stop() and leaves
the non-electrode (top two) bits of the enable register untouched - the
whole register ends at its pre-stop value, and the intermediate stopped
state keeps the top bits while clearing the electrode bits.  The device
holds byte values and both ECR writes are assumed to succeed. -/
theorem claim_C5_stop_run_restores (s : St) (b : Bus)
    (h : isInitialized s = true) (hv : b.regs ECR < 256)
    (hw1 : b.writeOk ECR (b.regs ECR &&& 0xC0) = true)
    (hw2 : b.writeOk ECR (b.regs ECR) = true) :
    stopRunRestores s b := by
  have hmod : b.regs ECR % 256 = b.regs ECR := Nat.mod_eq_of_lt hv
  have hmask : (b.regs ECR &&& 0xC0) % 256 = b.regs ECR &&& 0xC0 :=
    Nat.mod_eq_of_lt (lt_of_le_of_lt Nat.and_le_right (by norm_num))
  have hv' : (getRegister s b ECR).1 = b.regs ECR := by
    rw [value_getRegister, hmod]
  have hstopregs : (stop s b).2.1.regs ECR = b.regs ECR &&& 0xC0 := by
    simp only [stop, if_pos h, setRegisterECR, bus_getRegister]
    rw [busWrite_regs, hv', hmask, hw1]
    simp
  have h2 : (stop s b).1.ecr_backup = b.regs ECR := by
    simp only [stop, if_pos h, setRegisterECR]
    rw [busWrite_ecr_backup]
    exact hv'
  have h3 : (stop s b).2.1.writeOk = b.writeOk := by
    simp only [stop, if_pos h, setRegisterECR]
    exact (busWrite_oracles _ _ _ _).1
  have h4 : isInitialized (stop s b).1 = true := by
    rw [isInitialized_stop]; exact h
  have hfin : (run (stop s b).1 (stop s b).2.1).2.1.regs ECR = b.regs ECR := by
    rw [run_inited _ _ h4]
    simp only [setRegisterECR]
    rw [busWrite_regs, h2, h3, hmod, hw2]
    simp [hmod]
  refine ⟨hfin, by rw [hfin], by rw [hfin], ?_, ?_⟩
  · rw [hstopregs, Nat.and_assoc, (show (0xC0 : Nat) &&& 0xC0 = 0xC0 by decide)]
  · rw [hstopregs, Nat.and_assoc, (show (0xC0 : Nat) &&& 0x3F = 0 by decide)]
    exact Nat.and_zero _

/-- Latching the touch flag leaves the baseline array alone. -/
lemma latch_baseline (s : St) (b : Bus) :
    (latchTouchFlag s b).baseline_data = s.baseline_data := by
  unfold latchTouchFlag
  split_ifs <;> rfl

/-- Latching the touch flag leaves the filtered array alone. -/
lemma latch_filtered (s : St) (b : Bus) :
    (latchTouchFlag s b).filtered_data = s.filtered_data := by
  unfold latchTouchFlag
  split_ifs <;> rfl

/-- What the baseline read loop stores: electrode slots below `n` hold
the burst bytes shifted left by 2, the rest of the array is untouched. -/
lemma baselineLoop_data (b : Bus) (s : St) (n e : Nat) :
    (baselineLoop b s n).baseline_data e =
      (if e < n then (b.regs (E0BV + e) % 256) <<< 2 else s.baseline_data e) := by
  induction n with
  | zero => simp [baselineLoop]
  | succ k ih =>
    simp only [baselineLoop]
    rw [latch_baseline, ih]
    by_cases he : e = k
    · subst he
      simp
    · simp only [he, if_false]
      split_ifs with h1 h2 <;> first | rfl | omega

/-- What the filtered read loop stores: electrode slots below `n` hold
MSB shifted left by 8 or-ed with LSB, the rest of the array untouched. -/
lemma filteredLoop_data (b : Bus) (s : St) (n e : Nat) :
    (filteredLoop b s n).filtered_data e =
      (if e < n then
        ((b.regs (E0FDL + 2 * e + 1) % 256) <<< 8) ||| (b.regs (E0FDL + 2 * e) % 256)
       else s.filtered_data e) := by
  induction n with
  | zero => simp [filteredLoop]
  | succ k ih =>
    simp only [filteredLoop]
    rw [latch_filtered, latch_filtered, ih]
    by_cases he : e = k
    · subst he
      simp
    · simp only [he, if_false]
      split_ifs with h1 h2 <;> first | rfl | omega

/-- Claim C8: on an initialized handle, a burst read that returns fewer
bytes than requested leaves the corresponding data array completely
unmodified and the call returns failure; the array is rewritten (with the
burst bytes, scaled per array) exactly when the full byte count arrives. -/
theorem claim_C8_short_burst (s : St) (b : Bus) (h : isInitialized s = true) :
    (b.avail E0BV ELECTRODE_COUNT ≠ ELECTRODE_COUNT →
      (updateBaselineData s b).1 = false ∧
      (updateBaselineData s b).2.1.baseline_data = s.baseline_data) ∧
    (b.avail E0BV ELECTRODE_COUNT = ELECTRODE_COUNT →
      (updateBaselineData s b).1 = true ∧
      (updateBaselineData s b).2.1.baseline_data = fun e =>
        if e < ELECTRODE_COUNT then (b.regs (E0BV + e) % 256) <<< 2
        else s.baseline_data e) ∧
    (b.avail E0FDL 26 ≠ 26 →
      (updateFilteredData s b).1 = false ∧
      (updateFilteredData s b).2.1.filtered_data = s.filtered_data) ∧
    (b.avail E0FDL 26 = 26 →
      (updateFilteredData s b).1 = true ∧
      (updateFilteredData s b).2.1.filtered_data = fun e =>
        if e < ELECTRODE_COUNT then
          ((b.regs (E0FDL + 2 * e + 1) % 256) <<< 8) ||| (b.regs (E0FDL + 2 * e) % 256)
        else s.filtered_data e) := by
  refine ⟨?_, ?_, ?_, ?_⟩
  · intro hg
    simp only [updateBaselineData, if_pos h, if_neg hg]
    exact ⟨trivial, latch_baseline s b⟩
  · intro hg
    simp only [updateBaselineData, if_pos h, if_pos hg]
    refine ⟨trivial, funext fun e => ?_⟩
    rw [baselineLoop_data, latch_baseline]
  · intro hg
    simp only [updateFilteredData, if_pos h, if_neg hg]
    exact ⟨trivial, latch_filtered s b⟩
  · intro hg
    simp only [updateFilteredData, if_pos h, if_pos hg]
    refine ⟨trivial, funext fun e => ?_⟩
    rw [filteredLoop_data, latch_filtered]

/-- A bus whose burst reads return no bytes at all. -/
def shortBus : Bus := { okBus with avail := fun _ _ => 0 }

/-- Claim C8, witness: on an initialized handle against a bus that
delivers no burst bytes, both refresh calls fail and leave their arrays
untouched. -/
theorem claim_C8_short_burst_w :
    isInitialized readyState = true ∧
    shortBus.avail E0BV ELECTRODE_COUNT ≠ ELECTRODE_COUNT ∧
    shortBus.avail E0FDL 26 ≠ 26 ∧
    ((updateBaselineData readyState shortBus).1 = false ∧
      (updateBaselineData readyState shortBus).2.1.baseline_data
        = readyState.baseline_data) ∧
    ((updateFilteredData readyState shortBus).1 = false ∧
      (updateFilteredData readyState shortBus).2.1.filtered_data
        = readyState.filtered_data) :=
  ⟨by decide, by decide, by decide,
    (claim_C8_short_burst readyState shortBus (by decide)).1 (by decide),
    (claim_C8_short_burst readyState shortBus (by decide)).2.2.1 (by decide)⟩

/-- A device whose enable register holds 0x8C: top bits 10, electrode
bits 001100. -/
def ecrBus : Bus := { okBus with regs := fun r => if r = ECR then 0x8C else 0 }

/-- A byte masked to the top two bits stays below 256. -/
lemma and192_mod (x : Nat) : (x &&& 0xC0) % 256 = x &&& 0xC0 :=
  Nat.mod_eq_of_lt (lt_of_le_of_lt Nat.and_le_right (by norm_num))

/-- busWrite does not touch the handle's running flag. -/
lemma busWrite_running (s : St) (b : Bus) (reg value : Nat) :
    (busWrite s b reg value).1.running = s.running := by
  simp only [busWrite]
  split_ifs <;> rfl

/-- stop leaves the write oracle unchanged. -/
lemma stop_writeOk (s : St) (b : Bus) (h : isInitialized s = true) :
    (stop s b).2.1.writeOk = b.writeOk := by
  simp only [stop, if_pos h, setRegisterECR, bus_getRegister]
  exact (busWrite_oracles _ _ _ _).1

/-- stop backs up the (byte) value read from the enable register. -/
lemma stop_ecr_backup (s : St) (b : Bus) (h : isInitialized s = true) :
    (stop s b).1.ecr_backup = b.regs ECR % 256 := by
  simp only [stop, if_pos h, setRegisterECR]
  rw [busWrite_ecr_backup]
  exact value_getRegister s b ECR

/-- The two transactions issued by stop: a read of the enable register
and a write of its masked top two bits. -/
lemma stop_trace (s : St) (b : Bus) (h : isInitialized s = true) :
    (stop s b).2.2 =
      [Ev.rd ECR (b.readOk ECR),
       Ev.wr ECR ((b.regs ECR % 256) &&& 0xC0)
         (b.writeOk ECR ((b.regs ECR % 256) &&& 0xC0))] := by
  simp only [stop, if_pos h, setRegisterECR, bus_getRegister]
  rw [busWrite_trace, getRegister_trace, value_getRegister, and192_mod]
  rfl

/-- The ECR branch of setRegister: the running flag follows the
electrode-enable bits of the written value, one plain write. -/
def ecrWriteStep (s : St) (b : Bus) (value : Nat) : Prop :=
  (setRegister s b ECR value).1.running = (value &&& 0x3F != 0) ∧
  (setRegister s b ECR value).2.2 = [Ev.wr ECR value (b.writeOk ECR value)]

/-- The bracketed write: read ECR, write its masked value (stop), write
the target register, write the backup back (run); afterwards the running
flag follows the electrode-enable bits of the read-back value. -/
def bracketedWrite (s : St) (b : Bus) (reg value : Nat) : Prop :=
  (setRegister s b reg value).2.2 =
    [Ev.rd ECR (b.readOk ECR),
     Ev.wr ECR ((b.regs ECR % 256) &&& 0xC0)
       (b.writeOk ECR ((b.regs ECR % 256) &&& 0xC0)),
     Ev.wr reg value (b.writeOk reg value),
     Ev.wr ECR (b.regs ECR % 256) (b.writeOk ECR (b.regs ECR % 256))] ∧
  (setRegister s b reg value).1.running = ((b.regs ECR % 256) &&& 0x3F != 0)

/-- The unbracketed write: a single transaction, running flag untouched. -/
def plainWrite (s : St) (b : Bus) (reg value : Nat) : Prop :=
  (setRegister s b reg value).2.2 = [Ev.wr reg value (b.writeOk reg value)] ∧
  (setRegister s b reg value).1.running = s.running

/-- Claim C6: setRegister's three modes - an ECR write updates the
running flag from the electrode-enable bits of the value; a write to any
other register below CTL0 on a running (initialized) handle is bracketed
by stop and run; a write at or above CTL0 is performed without the
bracket and leaves the running flag alone. -/
theorem claim_C6_setRegister_modes (s : St) (b : Bus) (reg value : Nat)
    (hval : value < 256) :
    ecrWriteStep s b value ∧
    (reg ≠ ECR → reg < CTL0 → s.running = true → isInitialized s = true →
      bracketedWrite s b reg value) ∧
    (reg ≠ ECR → CTL0 ≤ reg → plainWrite s b reg value) := by
  have hmodv : value % 256 = value := Nat.mod_eq_of_lt hval
  refine ⟨⟨?_, ?_⟩, ?_, ?_⟩
  · rw [setRegister_ecr]
    unfold setRegisterECR
    rw [busWrite_running]
  · rw [setRegister_ecr, (setRegisterECR_au s b value).1, hmodv]
  · intro h1 h2 h3 h4
    have h4s : isInitialized (stop s b).1 = true := by
      rw [isInitialized_stop]; exact h4
    have hmid : isInitialized (busWrite (stop s b).1 (stop s b).2.1 reg value).1
        = true := by rw [isInitialized_busWrite]; exact h4s
    have hbk : (busWrite (stop s b).1 (stop s b).2.1 reg value).1.ecr_backup
        = b.regs ECR % 256 := by
      rw [busWrite_ecr_backup, stop_ecr_backup s b h4]
    have hbw : (busWrite (stop s b).1 (stop s b).2.1 reg value).2.1.writeOk
        = b.writeOk := by
      rw [(busWrite_oracles _ _ _ _).1, stop_writeOk s b h4]
    constructor
    · rw [setRegister_bracket s b reg value h1 h2 h3, run_inited _ _ hmid,
        (setRegisterECR_au _ _ _).1, stop_trace s b h4, busWrite_trace, hbk, hbw,
        stop_writeOk s b h4, hmodv, Nat.mod_mod]
      rfl
    · rw [setRegister_bracket s b reg value h1 h2 h3, run_inited _ _ hmid]
      unfold setRegisterECR
      rw [busWrite_running, hbk]
  · intro h1 h2
    constructor
    · rw [setRegister_high s b reg value h1 h2, busWrite_trace, hmodv]
    · rw [setRegister_high s b reg value h1 h2, busWrite_running]

/-- An initialized handle whose running flag is set. -/
def runState : St := { readyState with running := true }

/-- Claim C6, witness: the three modes at ECR, at E0TTH (below CTL0,
running), and at the SET register (above CTL0), against `ecrBus`. -/
theorem claim_C6_setRegister_modes_w :
    (7 : Nat) < 256 ∧
    E0TTH ≠ ECR ∧ E0TTH < CTL0 ∧ runState.running = true ∧
    isInitialized runState = true ∧
    SET ≠ ECR ∧ CTL0 ≤ SET ∧
    ecrWriteStep runState ecrBus 7 ∧
    bracketedWrite runState ecrBus E0TTH 7 ∧
    plainWrite runState ecrBus SET 7 :=
  ⟨by decide, by decide, by decide, by decide, by decide, by decide, by decide,
    (claim_C6_setRegister_modes runState ecrBus E0TTH 7 (by decide)).1,
    (claim_C6_setRegister_modes runState ecrBus E0TTH 7 (by decide)).2.1
      (by decide) (by decide) (by decide) (by decide),
    (claim_C6_setRegister_modes runState ecrBus SET 7 (by decide)).2.2
      (by decide) (by decide)⟩

/-- Claim C5, witness on an initialized handle against `ecrBus`. -/
theorem claim_C5_stop_run_restores_w :
    isInitialized readyState = true ∧ ecrBus.regs ECR < 256 ∧
    ecrBus.writeOk ECR (ecrBus.regs ECR &&& 0xC0) = true ∧
    ecrBus.writeOk ECR (ecrBus.regs ECR) = true ∧
    stopRunRestores readyState ecrBus :=
  ⟨by decide, by decide, by decide, by decide,
    claim_C5_stop_run_restores readyState ecrBus (by decide) (by decide) (by decide)
      (by decide)⟩

end MPR121
